import Mathlib

/-!
Verification of the KennisHub API client (`api.py`).

The client is a set of pure-per-call methods: each validates inputs,
sends one HTTP request, and interprets the response's status code and
decoded JSON body.  We embed the response-interpretation and validation
logic shallowly: a `Response` is a status code together with the decoded
JSON body and raw text; each method becomes a function
`Response → Except Err _`.  Python exceptions become `Err` values;
Python `dict.get`, truthiness, `in`, and iteration are modelled by
`pyGet`, `Json.truthy`, `pyInStr`, and `pyIter` with their exact
semantics (including the `AttributeError` / `TypeError` / `NameError`
failure modes of CPython).
-/

/-- The exceptions the client can raise.  `valueError`, the three domain
error classes and `httpError` (what `requests.Response.raise_for_status`
raises) carry their message or status; `nameError` models CPython's
`NameError` for an unbound identifier; `attributeError` models calling
`.get` on a non-dict; `typeError` models iterating a non-iterable or
using `in` on a non-string. -/
inductive Err where
  | valueError (msg : String)
  | registrationError (msg : String)
  | loginError (msg : String)
  | passwordError (msg : String)
  | httpError (status : Nat)
  | nameError (ident : String)
  | attributeError
  | typeError
deriving DecidableEq, Repr

/-- Decoded JSON values, as produced by `response.json()`. -/
inductive Json where
  | null
  | bool (b : Bool)
  | num (n : Int)
  | str (s : String)
  | arr (elems : List Json)
  | obj (fields : List (String × Json))

/-- First value bound to key `k` in an association list (Python dicts have
unique keys, so first-match lookup is exact). -/
def jlookup (kvs : List (String × Json)) (k : String) : Option Json :=
  match kvs with
  | [] => none
  | (k', v) :: rest => if k' = k then some v else jlookup rest k

/-- Python `d.get(k)`: `None` when the key is absent, `AttributeError`
when the receiver is not a dict. -/
def pyGet (j : Json) (k : String) : Except Err Json :=
  match j with
  | .obj kvs => .ok ((jlookup kvs k).getD .null)
  | _ => .error .attributeError

/-- Python `d.get(k, default)`. -/
def pyGetD (j : Json) (k : String) (default : Json) : Except Err Json :=
  match j with
  | .obj kvs => .ok ((jlookup kvs k).getD default)
  | _ => .error .attributeError

/-- Python truthiness of a decoded JSON value: `None` and `False` are
falsy, numbers are truthy iff nonzero, strings/lists/dicts iff
nonempty. -/
def Json.truthy : Json → Bool
  | .null => false
  | .bool b => b
  | .num n => n != 0
  | .str s => s != ""
  | .arr xs => !xs.isEmpty
  | .obj kvs => !kvs.isEmpty

/-- Python `for x in v`: lists yield their elements, strings their
one-character substrings, dicts their keys; other values raise
`TypeError`. -/
def pyIter : Json → Except Err (List Json)
  | .arr xs => .ok xs
  | .str s => .ok (s.data.map (fun c => .str (String.singleton c)))
  | .obj kvs => .ok (kvs.map (fun kv => .str kv.1))
  | _ => .error .typeError

/-- An HTTP response as the transport collaborator exposes it: status
code, decoded JSON body, raw text body. -/
structure Response where
  status_code : Nat
  body : Json
  text : String

/-- `requests.Response.raise_for_status()`: raises `HTTPError` exactly
for 4xx and 5xx status codes, and is a no-op for every other status. -/
def raise_for_status (status : Nat) : Except Err Unit :=
  if 400 ≤ status ∧ status < 600 then .error (.httpError status) else .ok ()

/-- `validate_title_and_description` (api.py:24-30): the three checks in
source order.  Python `not s` on a string is the emptiness test and
`len` counts code points, as `String.length` does. -/
def validate_title_and_description (title description : String) : Except Err Unit := do
  if title = "" then throw (.valueError "Titel is verplicht")
  if description = "" then throw (.valueError "Een korte beschrijving is verplicht")
  if description.length > 280 then throw (.valueError "Er zijn maximaal 280 karakters toegestaan")

/-- `validate_link_and_title` (api.py:32-41).  The compiled URL regex is
library code and is abstracted as the predicate `urlMatch` (the result
of `pattern.match(url)` being truthy).  The final check reads
`len(description)`, but `description` is not among the function's
parameters and no global of that name exists, so reaching that line
raises `NameError: name 'description' is not defined`. -/
def validate_link_and_title (urlMatch : String → Bool) (url title : String) :
    Except Err Unit := do
  if title = "" then throw (.valueError "Een titel is verplicht.")
  if url = "" then throw (.valueError "Een bron is verplicht")
  if ¬ urlMatch url then throw (.valueError "Vul een valide url in")
  throw (.nameError "description")

/-- `validate_message` (api.py:43-47). -/
def validate_message (message : String) : Except Err Unit := do
  if message = "" then throw (.valueError "Een bericht is verplicht")
  if message.length > 144 then throw (.valueError "Een bericht mag maximaal 144 karakters zijn")

/-- `.replace(' ', '-')` as used at api.py:50: with a single-character
pattern every space is substituted individually, so the replacement is a
character map. -/
def spaceToHyphen (s : String) : String :=
  ⟨s.data.map (fun c => if c = ' ' then '-' else c)⟩

/-- CPython's `str.lower` is library code (full Unicode lowercasing,
with multi-character expansions such as U+0130 and the context-sensitive
final sigma), so it enters the model the way the URL regex does: as an
arbitrary function carrying the documented properties the client's
behavior rests on.
* `lower_idem`: `str.lower` is idempotent — Unicode lowercase mappings
  produce only uncased or lowercase characters (and never a capital
  sigma), and `str.lower` is the identity on such strings.
* `lower_fix_spaceToHyphen`: a string fixed by `str.lower` contains no
  uppercase letter and no capital sigma, every remaining character
  lowers to itself independently of context, and `' '` and `'-'` are
  both caseless, so replacing spaces by hyphens keeps the string fixed.
* `lower_ascii`: on ASCII strings `str.lower` lowercases exactly
  `A`–`Z`, which is what `Char.toLower` does character-wise. -/
structure LowerModel where
  lower : String → String
  lower_idem : ∀ s, lower (lower s) = lower s
  lower_fix_spaceToHyphen : ∀ t, lower t = t → lower (spaceToHyphen t) = spaceToHyphen t
  lower_ascii : ∀ s : String, (∀ c ∈ s.data, c.toNat < 128) →
    lower s = ⟨s.data.map Char.toLower⟩

/-- `input2slug` (api.py:49-51): `input.lower().replace(' ', '-')`,
for any model `M` of the library's `str.lower`. -/
def input2slug (M : LowerModel) (input : String) : String :=
  spaceToHyphen (M.lower input)

/-- Character-wise ASCII lowercasing: CPython's `str.lower` restricted
to ASCII strings. -/
def asciiLower (s : String) : String := ⟨s.data.map Char.toLower⟩

/-- `asciiLower` satisfies the `LowerModel` interface, showing the
interface is satisfiable (its proofs are self-contained so the model can
live with the definitions). -/
def asciiLowerModel : LowerModel where
  lower := asciiLower
  lower_idem s := by
    have hchar : ∀ c : Char, Char.toLower (Char.toLower c) = Char.toLower c := by
      intro c
      unfold Char.toLower
      by_cases h : c.toNat ≥ 65 ∧ c.toNat ≤ 90
      · rw [if_pos h]
        have hval : (c.toNat + 32).isValidChar := Or.inl (by omega)
        have htn : (Char.ofNat (c.toNat + 32)).toNat = c.toNat + 32 := by
          rw [Char.ofNat, dif_pos hval]
          rfl
        rw [htn, if_neg (by omega)]
      · rw [if_neg h, if_neg h]
    show asciiLower (asciiLower s) = asciiLower s
    unfold asciiLower
    congr 1
    simp only [List.map_map]
    apply List.map_congr_left
    intro c _
    exact hchar c
  lower_fix_spaceToHyphen t h := by
    have hd : t.data.map Char.toLower = t.data := congrArg String.data h
    have hone : ∀ l : List Char, l.map Char.toLower = l → ∀ c ∈ l, Char.toLower c = c := by
      intro l
      induction l with
      | nil =>
        intro _ c hc
        cases hc
      | cons x xs ih =>
        intro hmap c hc
        rw [List.map_cons] at hmap
        injection hmap with h1 h2
        rcases List.mem_cons.mp hc with rfl | hmem
        · exact h1
        · exact ih h2 c hmem
    show asciiLower (spaceToHyphen t) = spaceToHyphen t
    unfold asciiLower spaceToHyphen
    congr 1
    simp only [List.map_map]
    apply List.map_congr_left
    intro c hc
    by_cases hcs : c = ' '
    · simp [hcs]
    · simp [hcs, hone t.data hd c hc]
  lower_ascii s _ := rfl

mutual

/-- Structural equality of JSON values, modelling Python `==` on decoded
bodies as used by `in` on lists. -/
def Json.beq : Json → Json → Bool
  | .null, .null => true
  | .bool a, .bool b => a = b
  | .num a, .num b => a = b
  | .str a, .str b => a = b
  | .arr xs, .arr ys => Json.beqList xs ys
  | .obj xs, .obj ys => Json.beqFields xs ys
  | _, _ => false

def Json.beqList : List Json → List Json → Bool
  | [], [] => true
  | x :: xs, y :: ys => Json.beq x y && Json.beqList xs ys
  | _, _ => false

def Json.beqFields : List (String × Json) → List (String × Json) → Bool
  | [], [] => true
  | (k, v) :: xs, (l, w) :: ys => k = l && Json.beq v w && Json.beqFields xs ys
  | _, _ => false

end

/-- What a client call produces: either an exception raised locally
before the HTTP request is issued, or the request was sent and the
response handled (possibly itself raising). -/
inductive Outcome (α : Type) where
  | localError (e : Err)
  | sent (result : Except Err α)

/-- `register_user` (api.py:69-90).  The password length check runs
before `requests.post`; every later step belongs to response handling.
`name`, `email`, `function`, `url` only populate the request payload. -/
def register_user (name email function url password : String) (resp : Response) :
    Outcome Unit :=
  if password.length < 8 then
    .localError (.registrationError "Je wachtwoord moet minimaal 8 karakters bevatten.")
  else
    .sent (do
      if resp.status_code = 200 then
        let data ← pyGet resp.body "status"
        if ¬ data.truthy then
          throw (.registrationError "Er is iets mis gegaan met registreren, probeer het later nog eens. Of probeer je wachtwoord te resetten.")
      else if resp.status_code = 401 then
        throw (.registrationError "Wachtwoord is verplicht.")
      else
        raise_for_status resp.status_code)

/-- `verify_email` (api.py:112-125).  On a non-200 status the code
executes `raise InvalidVerificationLink(...)`, but no class of that name
is defined anywhere in the source or its imports, so CPython raises
`NameError: name 'InvalidVerificationLink' is not defined` while
evaluating the expression.  On 200 the decoded body is returned
verbatim. -/
def verify_email (id hash_value expires signature : String) (resp : Response) :
    Except Err Json :=
  if resp.status_code ≠ 200 then .error (.nameError "InvalidVerificationLink")
  else .ok resp.body

/-- `send_reply_comment` (api.py:245-255): no validation and no status
inspection; returns the decoded body when the client's format is
`"json"`, the raw text otherwise.  `validate_message` exists in the
class but is not called here. -/
def send_reply_comment (response_format token message post_id : String)
    (resp : Response) : Except Err (Json ⊕ String) :=
  if response_format = "json" then .ok (.inl resp.body) else .ok (.inr resp.text)

/-- The Topic(output) record produced by `get_topics_list`; every field
holds the looked-up JSON value, `Json.null` standing for Python `None`. -/
structure TopicOut where
  topic_id : Json
  user_id : Json
  title : Json
  topic_slug : Json
  description : Json
  topic_created_at : Json
  topic_updated_at : Json
  topic_human_readable_created_at : Json
  user_name : Json
  user_slug : Json

/-- The per-element projection in `get_topics_list` (api.py:184-197),
fields in the evaluation order of the dict literal.  The source
evaluates `topic.get('user', {})` once per user field; it is pure, so a
single binding placed at its first use is equivalent. -/
def projectTopic (topic : Json) : Except Err TopicOut := do
  let tid ← pyGet topic "id"
  let uid ← pyGet topic "user_id"
  let ti ← pyGet topic "title"
  let sl ← pyGet topic "slug"
  let de ← pyGet topic "description"
  let ca ← pyGet topic "created_at"
  let ua ← pyGet topic "updated_at"
  let hr ← pyGet topic "human_readable_created_at"
  let user ← pyGetD topic "user" (Json.obj [])
  let un ← pyGet user "name"
  let us ← pyGet user "slug"
  pure { topic_id := tid, user_id := uid, title := ti, topic_slug := sl,
         description := de, topic_created_at := ca, topic_updated_at := ua,
         topic_human_readable_created_at := hr, user_name := un, user_slug := us }

/-- `get_topics_list` (api.py:175-199): `raise_for_status`, then
`response.json().get('data', [])`, then the per-topic projection.
`token` and `sort_order` only populate the request. -/
def get_topics_list (token sort_order : String) (resp : Response) :
    Except Err (List TopicOut) := do
  raise_for_status resp.status_code
  let data ← pyGetD resp.body "data" (Json.arr [])
  let items ← pyIter data
  items.mapM projectTopic

/-- The Post(output) record produced by `get_topics_replies`. -/
structure PostOut where
  title : Json
  description : Json
  url : Json
  post_id : Json
  post_date : Json
  user_name : Json
  user_slug : Json
  upvotes_count : Json
  comments_count : Json
  post_created_at : Json
  post_updated_at : Json

/-- The per-element projection in `get_topics_replies` (api.py:270-284),
fields in the evaluation order of the dict literal.  Note the source
reads `post_created_at` and `post_updated_at` out of
`post.get('user', {})`, not out of `post` itself. -/
def projectPost (post : Json) : Except Err PostOut := do
  let ti ← pyGet post "title"
  let de ← pyGet post "description"
  let ur ← pyGet post "url"
  let pid ← pyGet post "id"
  let pd ← pyGet post "human_readable_created_at"
  let user ← pyGetD post "user" (Json.obj [])
  let un ← pyGet user "name"
  let us ← pyGet user "slug"
  let up ← pyGet post "upvotes_count"
  let cc ← pyGet post "comments_count"
  let pc ← pyGet user "created_at"
  let pu ← pyGet user "updated_at"
  pure { title := ti, description := de, url := ur, post_id := pid, post_date := pd,
         user_name := un, user_slug := us, upvotes_count := up, comments_count := cc,
         post_created_at := pc, post_updated_at := pu }

/-- `get_topics_replies` (api.py:257-286): no status inspection at all;
`response.json().get('data', [])`, then the per-post projection.
`token`, `input_topic`, `sort_by`, `sort_order` only populate the
request (the topic slug sent is the slug conversion of `input_topic`). -/
def get_topics_replies (token input_topic sort_by sort_order : String)
    (resp : Response) : Except Err (List PostOut) := do
  let data ← pyGetD resp.body "data" (Json.arr [])
  let items ← pyIter data
  items.mapM projectPost

/-- The spec's §8 example topic record. -/
def exampleTopic : Json :=
  .obj [("id", .num 1), ("user_id", .num 2), ("title", .str "T"), ("slug", .str "t"),
        ("description", .str "D"), ("created_at", .str "c"), ("updated_at", .str "u"),
        ("human_readable_created_at", .str "now"),
        ("user", .obj [("name", .str "A"), ("slug", .str "a")])]

/-- A post record carrying its own timestamps ("pc"/"pu") and different
ones inside the embedded user object ("uc"/"uu"). -/
def examplePost : Json :=
  .obj [("id", .num 7), ("title", .str "T"), ("description", .str "D"),
        ("url", .str "https://x.nl"), ("upvotes_count", .num 3),
        ("comments_count", .num 4), ("human_readable_created_at", .str "now"),
        ("created_at", .str "pc"), ("updated_at", .str "pu"),
        ("user", .obj [("name", .str "A"), ("slug", .str "a"),
                       ("created_at", .str "uc"), ("updated_at", .str "uu")])]

/-! ## General lemmas about the embedding -/

@[simp] theorem exc_throw_def {α : Type} (e : Err) : (throw e : Except Err α) = .error e := rfl

@[simp] theorem exc_pure_def {α : Type} (a : α) : (pure a : Except Err α) = .ok a := rfl

@[simp] theorem exc_error_bind {α β : Type} (e : Err) (f : α → Except Err β) :
    (Except.error e >>= f) = .error e := rfl

@[simp] theorem exc_ok_bind {α β : Type} (a : α) (f : α → Except Err β) :
    (Except.ok a >>= f) = f a := rfl

@[simp] theorem truthy_str (s : String) : (Json.str s).truthy = (s != "") := rfl

theorem repl_char_idem (c : Char) :
    (if (if c = ' ' then '-' else c) = ' ' then '-' else (if c = ' ' then '-' else c)) =
    (if c = ' ' then '-' else c) := by
  by_cases h : c = ' ' <;> simp [h]

theorem spaceToHyphen_idem (t : String) :
    spaceToHyphen (spaceToHyphen t) = spaceToHyphen t := by
  unfold spaceToHyphen
  congr 1
  simp only [List.map_map]
  apply List.map_congr_left
  intro c _
  exact repl_char_idem c

/-! ## The claims -/

/-- C1: `validate_title_and_description` accepts iff the title is
non-empty, the description is non-empty and the description has at most
280 characters; when it rejects, it raises `ValueError` with the exact
message of the first violated rule in source order (empty title, then
empty description, then overlong description). -/
theorem validate_title_and_description_correct (title description : String) :
    (validate_title_and_description title description = .ok () ↔
      title ≠ "" ∧ description ≠ "" ∧ description.length ≤ 280)
    ∧ (title = "" →
        validate_title_and_description title description =
          .error (.valueError "Titel is verplicht"))
    ∧ (title ≠ "" → description = "" →
        validate_title_and_description title description =
          .error (.valueError "Een korte beschrijving is verplicht"))
    ∧ (title ≠ "" → description ≠ "" → 280 < description.length →
        validate_title_and_description title description =
          .error (.valueError "Er zijn maximaal 280 karakters toegestaan")) := by
  unfold validate_title_and_description
  by_cases ht : title = "" <;> by_cases hd : description = "" <;>
    by_cases hl : description.length > 280 <;>
    simp_all

theorem validate_title_and_description_correct_witness :
    validate_title_and_description "t" "d" = .ok ()
    ∧ validate_title_and_description "" "d" = .error (.valueError "Titel is verplicht")
    ∧ validate_title_and_description "t" "" =
        .error (.valueError "Een korte beschrijving is verplicht") :=
  ⟨(validate_title_and_description_correct "t" "d").1.mpr (by decide),
   (validate_title_and_description_correct "" "d").2.1 rfl,
   (validate_title_and_description_correct "t" "").2.2.1 (by decide) rfl⟩

/-- C9: `input2slug` is exactly lowercase-then-replace-spaces (so
punctuation and consecutive hyphens survive), maps "Hello World" to
"hello-world" and "ALREADY-slug" to "already-slug", and is idempotent on
every input string — proved for every model of the library's
`str.lower` satisfying its documented properties, CPython's included. -/
theorem input2slug_correct (M : LowerModel) :
    input2slug M "Hello World" = "hello-world"
    ∧ input2slug M "ALREADY-slug" = "already-slug"
    ∧ input2slug M "A!  B" = "a!--b"
    ∧ ∀ s : String, input2slug M (input2slug M s) = input2slug M s := by
  refine ⟨?_, ?_, ?_, fun s => ?_⟩
  · show spaceToHyphen (M.lower "Hello World") = "hello-world"
    rw [M.lower_ascii "Hello World" (by decide)]
    decide
  · show spaceToHyphen (M.lower "ALREADY-slug") = "already-slug"
    rw [M.lower_ascii "ALREADY-slug" (by decide)]
    decide
  · show spaceToHyphen (M.lower "A!  B") = "a!--b"
    rw [M.lower_ascii "A!  B" (by decide)]
    decide
  · show spaceToHyphen (M.lower (spaceToHyphen (M.lower s))) = spaceToHyphen (M.lower s)
    rw [M.lower_fix_spaceToHyphen (M.lower s) (M.lower_idem s), spaceToHyphen_idem]

theorem input2slug_correct_witness :
    input2slug asciiLowerModel "Hello World" = "hello-world"
    ∧ input2slug asciiLowerModel (input2slug asciiLowerModel "Mixed CASE txt") =
        input2slug asciiLowerModel "Mixed CASE txt" :=
  ⟨(input2slug_correct asciiLowerModel).1,
   (input2slug_correct asciiLowerModel).2.2.2 "Mixed CASE txt"⟩

/-- C2: with a non-empty title and a non-empty url accepted by the URL
pattern, `validate_link_and_title` always raises `NameError` for the
unbound identifier `description` — the function has no `description`
parameter, so the final length check can neither raise the documented
`ValueError` nor accept. -/
theorem validate_link_and_title_raises_nameError (urlMatch : String → Bool)
    (url title : String) (ht : title ≠ "") (hu : url ≠ "") (hm : urlMatch url = true) :
    validate_link_and_title urlMatch url title = .error (.nameError "description") := by
  unfold validate_link_and_title
  simp [ht, hu, hm]

theorem validate_link_and_title_raises_nameError_witness :
    validate_link_and_title (fun _ => true) "https://example.com" "t" =
      .error (.nameError "description") :=
  validate_link_and_title_raises_nameError (fun _ => true) "https://example.com" "t"
    (by decide) (by decide) rfl

/-- C5: `register_user` with a password shorter than 8 characters raises
`RegistrationError` (whose message contains "minimaal 8 karakters")
before the request is issued, whatever the other arguments and whatever
response the network would have produced; with 8 or more characters no
local validation error is raised and the request is sent. -/
theorem register_user_password_check (name email function url password t : String)
    (s : Nat) (b : Json) :
    (password.length < 8 →
      register_user name email function url password ⟨s, b, t⟩ =
        .localError (.registrationError "Je wachtwoord moet minimaal 8 karakters bevatten."))
    ∧ (∃ pre post : String, "Je wachtwoord moet minimaal 8 karakters bevatten." =
        pre ++ "minimaal 8 karakters" ++ post)
    ∧ (8 ≤ password.length →
        ∃ r, register_user name email function url password ⟨s, b, t⟩ = .sent r) := by
  refine ⟨fun h => ?_, ⟨"Je wachtwoord moet ", " bevatten.", rfl⟩, fun h => ?_⟩
  · unfold register_user
    rw [if_pos h]
  · unfold register_user
    rw [if_neg (by omega)]
    exact ⟨_, rfl⟩

theorem register_user_password_check_witness :
    register_user "n" "e" "f" "u" "1234567" ⟨200, .obj [("status", .bool true)], ""⟩ =
      .localError (.registrationError "Je wachtwoord moet minimaal 8 karakters bevatten.")
    ∧ ∃ r, register_user "n" "e" "f" "u" "12345678"
        ⟨200, .obj [("status", .bool true)], ""⟩ = .sent r :=
  ⟨(register_user_password_check "n" "e" "f" "u" "1234567" "" 200
      (.obj [("status", .bool true)])).1 (by decide),
   (register_user_password_check "n" "e" "f" "u" "12345678" "" 200
      (.obj [("status", .bool true)])).2.2 (by decide)⟩

/-- C7: `verify_email` returns the decoded body verbatim on a 200
response; on every non-200 response the code's `raise
InvalidVerificationLink(...)` line raises `NameError` instead of the
intended verification-link error, because no such class is defined. -/
theorem verify_email_behavior (id hash_value expires signature t : String)
    (s : Nat) (b : Json) :
    (s = 200 → verify_email id hash_value expires signature ⟨s, b, t⟩ = .ok b)
    ∧ (s ≠ 200 → verify_email id hash_value expires signature ⟨s, b, t⟩ =
        .error (.nameError "InvalidVerificationLink")) := by
  unfold verify_email
  constructor <;> intro h <;> simp [h]

theorem verify_email_behavior_witness :
    verify_email "92" "b03" "1677581044" "7245" ⟨200, .str "body", ""⟩ = .ok (.str "body")
    ∧ verify_email "92" "b03" "1677581044" "7245" ⟨404, .null, ""⟩ =
        .error (.nameError "InvalidVerificationLink") :=
  ⟨(verify_email_behavior "92" "b03" "1677581044" "7245" "" 200 (.str "body")).1 rfl,
   (verify_email_behavior "92" "b03" "1677581044" "7245" "" 404 .null).2 (by decide)⟩

/-- C8: `send_reply_comment` never raises a local validation error for
any message (the message validator is not invoked), and returns the
decoded body when the client format is "json" and the raw text
otherwise, independently of the message and of the response status. -/
theorem send_reply_comment_no_checks (response_format token message post_id t : String)
    (s : Nat) (b : Json) :
    send_reply_comment response_format token message post_id ⟨s, b, t⟩ =
      .ok (if response_format = "json" then .inl b else .inr t)
    ∧ (∀ (message' : String) (s' : Nat),
        send_reply_comment response_format token message post_id ⟨s, b, t⟩ =
        send_reply_comment response_format token message' post_id ⟨s', b, t⟩) := by
  unfold send_reply_comment
  refine ⟨?_, fun _ _ => rfl⟩
  by_cases h : response_format = "json" <;> simp [h]

/-- C4 (amended): on a 200 response whose `data` holds exactly the
spec's example topic record, `get_topics_list` produces exactly the
projected record; a 4xx or 5xx status always raises a transport error
(other non-2xx statuses, such as 304, pass `raise_for_status` silently). -/
theorem get_topics_list_correct (token sort_order t e : String) (s : Nat) (b : Json) :
    get_topics_list token sort_order ⟨200, .obj [("data", .arr [exampleTopic])], t⟩ =
      .ok [{ topic_id := .num 1, user_id := .num 2, title := .str "T",
             topic_slug := .str "t", description := .str "D",
             topic_created_at := .str "c", topic_updated_at := .str "u",
             topic_human_readable_created_at := .str "now",
             user_name := .str "A", user_slug := .str "a" }]
    ∧ (400 ≤ s → s < 600 →
        get_topics_list token e ⟨s, b, t⟩ = .error (.httpError s)) := by
  refine ⟨rfl, fun h1 h2 => ?_⟩
  unfold get_topics_list raise_for_status
  dsimp only
  rw [if_pos (by omega)]
  rfl

theorem get_topics_list_correct_witness :
    get_topics_list "tok" "desc" ⟨404, .null, ""⟩ = .error (.httpError 404) :=
  (get_topics_list_correct "tok" "desc" "" "desc" 404 .null).2 (by decide) (by decide)

/-- C4 counterexample to the claim as stated: 304 is not 2xx, yet
`raise_for_status` does not raise there and the call returns a value. -/
theorem get_topics_list_claim_counterexample :
    get_topics_list "tok" "desc" ⟨304, .obj [("data", .arr [])], ""⟩ = .ok [] := rfl

/-- C3: evaluation of `get_topics_replies` at a record whose own
`created_at`/`updated_at` differ from the embedded user's: the output's
`post_created_at`/`post_updated_at` are the user's values "uc"/"uu",
not the post's own "pc"/"pu" (the post's own values, shown by the last
two conjuncts, are dropped). -/
theorem get_topics_replies_timestamps_from_user :
    get_topics_replies "tok" "Some Topic" "created_at" "desc"
      ⟨200, .obj [("data", .arr [examplePost])], ""⟩ =
      .ok [{ title := .str "T", description := .str "D", url := .str "https://x.nl",
             post_id := .num 7, post_date := .str "now", user_name := .str "A",
             user_slug := .str "a", upvotes_count := .num 3, comments_count := .num 4,
             post_created_at := .str "uc", post_updated_at := .str "uu" }]
    ∧ pyGet examplePost "created_at" = .ok (.str "pc")
    ∧ pyGet examplePost "updated_at" = .ok (.str "pu") :=
  ⟨rfl, rfl, rfl⟩

/-- C10 (amended): for 2xx responses whose decoded body is a JSON
object with no "data" key, both projections return the empty list; for
elements of `data` that are objects whose "user" field is absent or an
object, every missing field is mapped to null in the output (including
the user-derived fields when "user" is absent); totality does not extend
to arbitrary bodies (see the counterexample). -/
theorem projections_missing_fields (token so it sb t : String)
    (kvs u : List (String × Json)) (s : Nat) :
    (200 ≤ s → s < 300 → jlookup kvs "data" = none →
      get_topics_list token so ⟨s, .obj kvs, t⟩ = .ok []
      ∧ get_topics_replies token it sb so ⟨s, .obj kvs, t⟩ = .ok [])
    ∧ (jlookup kvs "user" = none →
        projectTopic (.obj kvs) = .ok
          { topic_id := (jlookup kvs "id").getD .null,
            user_id := (jlookup kvs "user_id").getD .null,
            title := (jlookup kvs "title").getD .null,
            topic_slug := (jlookup kvs "slug").getD .null,
            description := (jlookup kvs "description").getD .null,
            topic_created_at := (jlookup kvs "created_at").getD .null,
            topic_updated_at := (jlookup kvs "updated_at").getD .null,
            topic_human_readable_created_at :=
              (jlookup kvs "human_readable_created_at").getD .null,
            user_name := .null, user_slug := .null })
    ∧ (jlookup kvs "user" = some (.obj u) →
        projectTopic (.obj kvs) = .ok
          { topic_id := (jlookup kvs "id").getD .null,
            user_id := (jlookup kvs "user_id").getD .null,
            title := (jlookup kvs "title").getD .null,
            topic_slug := (jlookup kvs "slug").getD .null,
            description := (jlookup kvs "description").getD .null,
            topic_created_at := (jlookup kvs "created_at").getD .null,
            topic_updated_at := (jlookup kvs "updated_at").getD .null,
            topic_human_readable_created_at :=
              (jlookup kvs "human_readable_created_at").getD .null,
            user_name := (jlookup u "name").getD .null,
            user_slug := (jlookup u "slug").getD .null })
    ∧ (jlookup kvs "user" = none →
        projectPost (.obj kvs) = .ok
          { title := (jlookup kvs "title").getD .null,
            description := (jlookup kvs "description").getD .null,
            url := (jlookup kvs "url").getD .null,
            post_id := (jlookup kvs "id").getD .null,
            post_date := (jlookup kvs "human_readable_created_at").getD .null,
            user_name := .null, user_slug := .null,
            upvotes_count := (jlookup kvs "upvotes_count").getD .null,
            comments_count := (jlookup kvs "comments_count").getD .null,
            post_created_at := .null, post_updated_at := .null })
    ∧ (jlookup kvs "user" = some (.obj u) →
        projectPost (.obj kvs) = .ok
          { title := (jlookup kvs "title").getD .null,
            description := (jlookup kvs "description").getD .null,
            url := (jlookup kvs "url").getD .null,
            post_id := (jlookup kvs "id").getD .null,
            post_date := (jlookup kvs "human_readable_created_at").getD .null,
            user_name := (jlookup u "name").getD .null,
            user_slug := (jlookup u "slug").getD .null,
            upvotes_count := (jlookup kvs "upvotes_count").getD .null,
            comments_count := (jlookup kvs "comments_count").getD .null,
            post_created_at := (jlookup u "created_at").getD .null,
            post_updated_at := (jlookup u "updated_at").getD .null }) := by
  refine ⟨fun h1 h2 hdata => ⟨?_, ?_⟩, fun huser => ?_, fun huser => ?_,
          fun huser => ?_, fun huser => ?_⟩
  · unfold get_topics_list raise_for_status
    dsimp only
    rw [if_neg (by omega)]
    simp [pyGetD, pyIter, hdata]
    rfl
  · unfold get_topics_replies
    simp [pyGetD, pyIter, hdata]
    rfl
  · unfold projectTopic
    simp [pyGet, pyGetD, huser, jlookup]
  · unfold projectTopic
    simp [pyGet, pyGetD, huser]
  · unfold projectPost
    simp [pyGet, pyGetD, huser, jlookup]
  · unfold projectPost
    simp [pyGet, pyGetD, huser]

theorem projections_missing_fields_witness :
    get_topics_list "tok" "desc" ⟨204, .obj [("x", .num 1)], ""⟩ = .ok []
    ∧ get_topics_replies "tok" "Topic" "created_at" "desc" ⟨204, .obj [("x", .num 1)], ""⟩ =
        .ok []
    ∧ projectTopic (.obj []) = .ok
        { topic_id := .null, user_id := .null, title := .null, topic_slug := .null,
          description := .null, topic_created_at := .null, topic_updated_at := .null,
          topic_human_readable_created_at := .null, user_name := .null, user_slug := .null }
    ∧ projectPost (.obj [("user", .obj [("name", .str "A")])]) = .ok
        { title := .null, description := .null, url := .null, post_id := .null,
          post_date := .null, user_name := .str "A", user_slug := .null,
          upvotes_count := .null, comments_count := .null,
          post_created_at := .null, post_updated_at := .null } :=
  ⟨((projections_missing_fields "tok" "desc" "Topic" "created_at" ""
      [("x", .num 1)] [] 204).1 (by decide) (by decide) rfl).1,
   ((projections_missing_fields "tok" "desc" "Topic" "created_at" ""
      [("x", .num 1)] [] 204).1 (by decide) (by decide) rfl).2,
   (projections_missing_fields "tok" "desc" "Topic" "created_at" "" [] [] 204).2.1 rfl,
   (projections_missing_fields "tok" "desc" "Topic" "created_at" ""
      [("user", .obj [("name", .str "A")])] [("name", .str "A")] 204).2.2.2.2 rfl⟩

/-- C10 counterexample to the claim as stated: the projections are not
total over arbitrary JSON bodies of 2xx responses — a non-list "data"
value raises `TypeError` and a non-dict element raises
`AttributeError`. -/
theorem projections_total_counterexample :
    get_topics_list "tok" "desc" ⟨200, .obj [("data", .num 5)], ""⟩ = .error .typeError
    ∧ get_topics_replies "tok" "Topic" "created_at" "desc"
        ⟨200, .obj [("data", .arr [.null])], ""⟩ = .error .attributeError :=
  ⟨rfl, rfl⟩
